import Mathlib

/-!
Shallow embedding of the botwartiket repository (a Playwright-driven ticket
bot for Loket.com) and proofs about its specification claims.

Sources embedded:
 - src/utils/selectors.js : the selector table, findElement, elementExists
 - src/bot.js            : isWaitingRoom, waitForBuyButton, selectCategory,
                           setQuantity, the phone pass of fillForm, and
                           navigateToPayment with its VA-number extraction.

Browser pages are modelled as oracle records: each Playwright query the code
performs (page.query for page.$, locatorFirst for page.locator(sel).first(),
and fixed-selector element lists) is a field of a page structure, and every
element carries the observable flags the code reads (visible, disabled,
bounding box presence, text content).  Awaited calls are assumed not to
throw unless the code inspects the throw (findElement and elementExists keep
the Except layer because their contract is about swallowing errors).
-/

namespace LoketBot

/-- JS String.prototype.includes: substring containment, modelled on the
character lists of the two strings. -/
def infixCheck (need : List Char) : List Char → Bool
  | [] => need.isEmpty
  | c :: rest => need.isPrefixOf (c :: rest) || infixCheck need rest

/-- JS str.includes(sub). -/
def jsIncludes (s sub : String) : Bool := infixCheck sub.toList s.toList

/-- JS str.toLowerCase(), modelled character by character (the strings the
bot lowercases are ASCII, where the two notions agree). -/
def jsToLower (s : String) : String := String.mk (s.toList.map Char.toLower)

/-- JS str.startsWith(pre). -/
def jsStartsWith (s pre : String) : Bool := pre.toList.isPrefixOf s.toList

/-- JS str.replace of the anchored pattern matching one leading zero:
removes a single leading zero when present. -/
def stripLeadingZero (s : String) : String :=
  match s.toList with
  | '0' :: tl => String.mk tl
  | _ => s

/-- An element handle as the code observes it: an identity, its tag-level
text content and the interactability flags the bot reads. -/
structure Elem where
  eid : Nat
  text : String := ""
  visible : Bool := true
  disabled : Bool := false
  checked : Bool := false
  hasBox : Bool := true
deriving DecidableEq

/- ===== src/utils/selectors.js ===== -/

/-- selectors.waitingRoom.urlPatterns from src/utils/selectors.js. -/
def urlPatterns : List String := ["waiting-room", "queue", "antrean", "antrian"]

/-- isWaitingRoom from src/bot.js: some pattern is contained in the
lowercased url. -/
def isWaitingRoom (url : String) : Bool :=
  urlPatterns.any fun pattern => jsIncludes (jsToLower url) pattern

/-- Result of one page.waitForSelector or page.dollar call: the call may
throw (selector rejected, timeout), or resolve to an element or null. -/
def WaitResult := Except Unit (Option Nat)

/-- The oracle for page.waitForSelector: selector, timeout budget
(JS float division is modelled on the rationals) and state option. -/
def WaitOracle := String → ℚ → String → Except Unit (Option Nat)

/-- The oracle for page.dollar (immediate query, no wait). -/
def QueryOracle := String → Except Unit (Option Nat)

/-- A wait or query outcome counts as a hit only when it resolved to an
element; a throw or a null resolution is a non-match. -/
def waitHit : Except Unit (Option Nat) → Option Nat
  | .ok (some e) => some e
  | .ok none => none
  | .error _ => none

/-- Loop of findElement from src/utils/selectors.js: try each selector with
the per-candidate budget, return the first element found, treat a throw as
a non-match and continue. -/
def findElementGo (wait : WaitOracle) (per : ℚ) (state : String) :
    List String → Option Nat
  | [] => none
  | sel :: rest =>
    match wait sel per state with
    | .ok (some e) => some e
    | .ok none => findElementGo wait per state rest
    | .error _ => findElementGo wait per state rest

/-- findElement from src/utils/selectors.js.  The timeout budget is divided
by the number of candidates; the division is written inside each iteration
in the source but its value is constant over the loop. -/
def findElement (wait : WaitOracle) (selectorArray : List String)
    (timeout : ℚ) (state : String) : Option Nat :=
  findElementGo wait (timeout / selectorArray.length) state selectorArray

/-- findElement applied with the defaulted options object
(timeout = 5000, state = visible). -/
def findElementDefaults (wait : WaitOracle) (selectorArray : List String) :
    Option Nat :=
  findElement wait selectorArray 5000 "visible"

/-- Ghost instrumentation of the findElement loop: the list of
(selector, budget) pairs passed to page.waitForSelector, in call order. -/
def findElementCallsGo (wait : WaitOracle) (per : ℚ) (state : String) :
    List String → List (String × ℚ)
  | [] => []
  | sel :: rest =>
    match wait sel per state with
    | .ok (some _) => [(sel, per)]
    | .ok none => (sel, per) :: findElementCallsGo wait per state rest
    | .error _ => (sel, per) :: findElementCallsGo wait per state rest

/-- The calls findElement issues for a given input. -/
def findElementCalls (wait : WaitOracle) (selectorArray : List String)
    (timeout : ℚ) (state : String) : List (String × ℚ) :=
  findElementCallsGo wait (timeout / selectorArray.length) state selectorArray

/-- elementExists from src/utils/selectors.js: immediate page.dollar probe
per candidate, true on the first hit, throw treated as a non-match. -/
def elementExists (q : QueryOracle) : List String → Bool
  | [] => false
  | sel :: rest =>
    match q sel with
    | .ok (some _) => true
    | .ok none => elementExists q rest
    | .error _ => elementExists q rest

/- ===== waitForBuyButton (src/bot.js lines 54-99) ===== -/

/-- selectors.event.buyButton from src/utils/selectors.js. -/
def buyButtonSelectors : List String :=
  ["button:has-text(\"Beli Tiket\")",
   "a:has-text(\"Beli Tiket\")",
   "[class*=\"buy\"]:has-text(\"Beli\")",
   ".btn-buy-ticket",
   "button:has-text(\"Buy Ticket\")",
   "[data-action=\"buy-ticket\"]"]

/-- What the page looks like on one polling tick: its current url and the
result of page.dollar for each buy-button selector (a throw from the query
or from the visibility reads is caught by the loop body). -/
structure BuySnap where
  url : String
  probe : String → Except Unit (Option Elem)

/-- Observable actions of the polling loop, used to state that a gated tick
performs no navigation.  The loop body never emits navigate or reload; the
constructors exist so that their absence is statable. -/
inductive BotAction where
  | readUrl
  | queueLog
  | probeSel (sel : String)
  | progressLog
  | sleep (ms : Nat)
  | navigate (url : String)
  | reload
deriving DecidableEq

/-- The buy-button scan of one tick: page.dollar per candidate selector in
order; a found element is returned only when visible and not disabled,
otherwise the next candidate is tried. -/
def tickProbe (snap : BuySnap) : List String → List BotAction × Option Elem
  | [] => ([], none)
  | sel :: rest =>
    match snap.probe sel with
    | .ok (some b) =>
      if b.visible && !b.disabled then ([.probeSel sel], some b)
      else
        let (as, r) := tickProbe snap rest
        (.probeSel sel :: as, r)
    | _ =>
      let (as, r) := tickProbe snap rest
      (.probeSel sel :: as, r)

/-- One iteration of the waitForBuyButton loop, for iteration counter it
(the source increments the counter at the top of the loop): first the url
is read and checked against the waiting-room patterns; a gated tick only
logs (throttled to every 50th iteration) and sleeps one poll interval;
otherwise the buy-button scan runs, and a miss sleeps one interval after an
optional progress log (every 100th iteration). -/
def buyTick (snap : BuySnap) (pollInterval : Nat) (it : Nat) :
    List BotAction × Option Elem :=
  if isWaitingRoom snap.url then
    (.readUrl :: (if it % 50 == 1 then [.queueLog] else []) ++
      [.sleep pollInterval], none)
  else
    let (as, r) := tickProbe snap buyButtonSelectors
    match r with
    | some b => (.readUrl :: as, some b)
    | none =>
      (.readUrl :: as ++ (if it % 100 == 0 then [.progressLog] else []) ++
        [.sleep pollInterval], none)

/-- waitForBuyButton from src/bot.js.  The source loop has no bound and no
timeout; the embedding consumes fuel, and running out of fuel models
external interruption of the still-running loop (result none).  env gives
the page as seen on each iteration. -/
def waitForBuyButton (env : Nat → BuySnap) (pollInterval : Nat) :
    Nat → Nat → List BotAction × Option Elem
  | 0, _ => ([], none)
  | fuel + 1, it =>
    let (as, r) := buyTick (env (it + 1)) pollInterval (it + 1)
    match r with
    | some b => (as, some b)
    | none =>
      let (as2, r2) := waitForBuyButton env pollInterval fuel (it + 1)
      (as ++ as2, r2)

/- ===== selectCategory and setQuantity (src/bot.js lines 102-396) ===== -/

/-- A ticket section as the keyword pass sees it: its text content and the
result of its scoped query for a Select or Pilih button. -/
structure SectionEl where
  text : String
  selectBtn : Option Elem
deriving DecidableEq

/-- The page as selectCategory observes it.  locatorFirst models
page.locator(sel).first() where none means the locator matches nothing (so
isVisible resolves false); query models page.dollar; docButtons is the
document.querySelectorAll result the strategy-2 page.evaluate iterates;
selectButtons and ticketSections are the fixed page.dollardollar queries of
the keyword pass (the section query is re-issued per keyword in the source
and returns the same list each time). -/
structure CatPage where
  locatorFirst : String → Option Elem
  query : String → Option Elem
  docButtons : List Elem
  selectButtons : List Elem
  ticketSections : List SectionEl

/-- Clicks and other effects the category/quantity code performs, traced so
that the order of selection strategies is observable. -/
inductive Act where
  | click (e : Elem)
  | jsClick (e : Elem)
  | mouseClick
  | fillQty (amt : Nat)
  | clickPlus
  | warnQty
deriving DecidableEq

/-- selectButtonSelectors of strategy 1 in selectCategory. -/
def selectButtonSelectors : List String :=
  ["button:has-text(\"Select\")",
   "button:has-text(\"Pilih\")",
   "[role=\"button\"]:has-text(\"Select\")",
   "div[class*=\"select\"]:has-text(\"Select\")",
   "button.bg-blue-500",
   "button.btn-primary",
   "button[class*=\"primary\"]",
   "button[class*=\"select\"]"]

/-- qtySelectors of strategy 1, built around the requested quantity text. -/
def qtySelectors (qtyText : String) : List String :=
  ["text=\"" ++ qtyText ++ "\"",
   "div:has-text(\"" ++ qtyText ++ "\"):not(:has(*:has-text(\"" ++
     qtyText ++ "\")))",
   "span:text-is(\"" ++ qtyText ++ "\")",
   "li >> text=\"" ++ qtyText ++ "\"",
   "[role=\"option\"]:has-text(\"" ++ qtyText ++ "\")",
   "div:text-is(\"" ++ qtyText ++ "\")",
   "p:text-is(\"" ++ qtyText ++ "\")",
   "ul li:first-child",
   "[role=\"listbox\"] [role=\"option\"]:first-child",
   "div.visible:has-text(\"1\")"]

/-- proceedSelectors of strategy 1. -/
def proceedSelectors : List String :=
  ["button:has-text(\"Order Now\")",
   "button:has-text(\"Order\")",
   "button:has-text(\"Continue\")",
   "button:has-text(\"Proceed\")",
   "button:has-text(\"Checkout\")",
   "button:has-text(\"Lanjutkan\")",
   "button:has-text(\"Pesan\")",
   "button[type=\"submit\"]:visible"]

/-- fallbackSelectors of the last pass of selectCategory. -/
def fallbackSelectors : List String :=
  ["button:has-text(\"Select\")",
   "button:has-text(\"Pilih\")",
   ".btn-primary:has-text(\"Select\")",
   "[class*=\"select\"]:not([disabled])",
   "button[class*=\"select\"]",
   ".ticket-item button",
   ".card button"]

/-- Strategy 1 candidate search: the first selector whose locator resolves
to a visible element with a bounding box is clicked; a visible element
without a bounding box is skipped (the source only clicks and breaks inside
the bounding-box branch). -/
def findDirectSelect (page : CatPage) : List String → Option Elem
  | [] => none
  | sel :: rest =>
    match page.locatorFirst sel with
    | some e =>
      if e.visible && e.hasBox then some e
      else findDirectSelect page rest
    | none => findDirectSelect page rest

/-- First selector in the list whose locator resolves to a visible element
(the pattern of the quantity-dropdown and proceed-button sub-loops). -/
def firstVisible (page : CatPage) : List String → Option Elem
  | [] => none
  | sel :: rest =>
    match page.locatorFirst sel with
    | some e => if e.visible then some e else firstVisible page rest
    | none => firstVisible page rest

/-- setQuantity from src/bot.js: direct numeric input when page.dollar
finds one, otherwise amount-1 clicks of a plus button, otherwise a
warning. -/
def setQuantity (page : CatPage) (amount : Nat) : List Act :=
  match page.query
      "input[type=\"number\"], .quantity-input, [class*=\"quantity\"] input, input[name*=\"qty\"]" with
  | some _ => [.fillQty amount]
  | none =>
    match page.query ".qty-plus, .btn-plus, [class*=\"plus\"], button:has-text(\"+\")" with
    | some _ => List.replicate (amount - 1) .clickPlus
    | none => [.warnQty]

/-- The sub-actions strategy 1 performs after clicking its Select button:
the quantity-dropdown sub-loop (coordinate click when no option is found)
and the proceed-button sub-loop. -/
def strat1FollowUp (page : CatPage) (ticketAmount : Nat) : List Act :=
  (match firstVisible page (qtySelectors (toString ticketAmount)) with
    | some q => [Act.click q]
    | none => [Act.mouseClick]) ++
  (match firstVisible page proceedSelectors with
    | some pb => [Act.click pb]
    | none => [])

/-- The sold-out test of the keyword pass: the section text, lowercased,
contains a sold-out marker. -/
def sectionSoldOut (s : SectionEl) : Bool :=
  jsIncludes (jsToLower s.text) "sold out" || jsIncludes (jsToLower s.text) "habis"

/-- The keyword test of the keyword pass, case-insensitive containment. -/
def sectionMatchesKw (kw : String) (s : SectionEl) : Bool :=
  jsIncludes (jsToLower s.text) (jsToLower kw)

/-- Scan of the ticket sections for one keyword: the first section whose
text contains the keyword, is not marked sold out and holds a Select
button yields that button; a sold-out match or a match without a button
falls through to the next section. -/
def sectionScan (kw : String) : List SectionEl → Option Elem
  | [] => none
  | s :: rest =>
    if sectionMatchesKw kw s then
      if sectionSoldOut s then sectionScan kw rest
      else
        match s.selectBtn with
        | some b => some b
        | none => sectionScan kw rest
    else sectionScan kw rest

/-- The keyword loop: keywords tried in listed order, each against the full
section list. -/
def keywordScan (page : CatPage) : List String → Option Elem
  | [] => none
  | kw :: rest =>
    match sectionScan kw page.ticketSections with
    | some b => some b
    | none => keywordScan page rest

/-- The page.dollar pass over fallbackSelectors: first selector whose query
finds a visible element. -/
def fallbackScan (page : CatPage) : List String → Option Elem
  | [] => none
  | sel :: rest =>
    match page.query sel with
    | some b => if b.visible then some b else fallbackScan page rest
    | none => fallbackScan page rest

/-- selectCategory from src/bot.js, returning its boolean result and the
trace of clicks it performs.  Stage order is exactly the source order:
(1) direct click of a Select-style button found by selectButtonSelectors,
with its quantity and proceed sub-clicks, (2) the page.evaluate JS click of
any document button whose text contains Select (case-sensitive), (3) the
keyword pass guarded by a non-empty selectButtons query, with its
first-Select-button fallback, (4) the fallbackSelectors pass; false only
when every stage misses.  Log-only statements of the source (url dumps,
button listings) are omitted. -/
def selectCategory (page : CatPage) (categoryKeywords : List String)
    (ticketAmount : Nat) : Bool × List Act :=
  match findDirectSelect page selectButtonSelectors with
  | some e =>
    (true, Act.click e :: strat1FollowUp page ticketAmount ++
      setQuantity page ticketAmount)
  | none =>
    match page.docButtons.find? (fun b => jsIncludes b.text "Select") with
    | some b => (true, [Act.jsClick b] ++ setQuantity page ticketAmount)
    | none =>
      match page.selectButtons with
      | [] =>
        match fallbackScan page fallbackSelectors with
        | some b => (true, [Act.click b] ++ setQuantity page ticketAmount)
        | none => (false, [])
      | fb :: _ =>
        match keywordScan page categoryKeywords with
        | some b => (true, [Act.click b] ++ setQuantity page ticketAmount)
        | none =>
          if fb.visible then
            (true, [Act.click fb] ++ setQuantity page ticketAmount)
          else
            match fallbackScan page fallbackSelectors with
            | some b => (true, [Act.click b] ++ setQuantity page ticketAmount)
            | none => (false, [])

/-- The element of the first click a selectCategory run performs. -/
def clickedElem? : Act → Option Elem
  | .click e => some e
  | .jsClick e => some e
  | _ => none

/-- First clicked element of a selectCategory run. -/
def firstClick (page : CatPage) (kws : List String) (amt : Nat) :
    Option Elem :=
  (selectCategory page kws amt).2.findSome? clickedElem?

/-- A section counts as selectable when it is not marked sold out and its
Select-button query finds a button. -/
def sectionSelectable (s : SectionEl) : Bool :=
  !sectionSoldOut s && s.selectBtn.isSome

/-- Formalization of claim C1 from the words of the spec (for comparison
with the source behaviour): preferred keywords are attempted in listed
order with a sold-out check before any selection, and the fallback to an
arbitrary category happens only after the keywords are exhausted; hence if
some preferred keyword has a selectable matching category, the first
element the run clicks is the Select button of a selectable category
matching a preferred keyword; and an unsuccessful result occurs only when
no category is selectable. -/
def specClaimC1 (page : CatPage) (kws : List String) (amt : Nat) : Prop :=
  ((∃ kw ∈ kws, ∃ s ∈ page.ticketSections,
      sectionMatchesKw kw s = true ∧ sectionSelectable s = true) →
    ∃ s ∈ page.ticketSections,
      (∃ kw ∈ kws, sectionMatchesKw kw s = true) ∧
      sectionSelectable s = true ∧
      firstClick page kws amt = s.selectBtn) ∧
  ((selectCategory page kws amt).1 = false →
    ∀ s ∈ page.ticketSections, sectionSelectable s = false)

/- ===== the phone pass of fillForm (src/bot.js lines 496-533) ===== -/

/-- A visible text input as the positional phone pass reads it: its name
attribute (none when absent), its current value, and the value inputValue
reports after the pass clicks, clears and types the phone into it (the
page, not the bot, decides that resulting value). -/
structure TextInput where
  nameAttr : Option String
  value : String
  typedValue : String
deriving DecidableEq

/-- JS falsiness of a getAttribute result: null or the empty string. -/
def jsFalsyAttr : Option String → Bool
  | none => true
  | some s => s == ""

/-- Log events of the phone pass. -/
inductive PhoneLog where
  | success (shown : String)
  | warn (shown : String)
deriving DecidableEq

/-- The positional phone pass of fillForm: the first visible text input
with a falsy name attribute and an empty value is clicked, cleared and
typed into; the resulting stored value is then compared against the
configured phone and the phone with one leading zero stripped, and the
comparison decides between a success log and a warning log.  none means no
qualifying input existed and nothing was typed. -/
def phoneFillPass (inputs : List TextInput) (phone : String) :
    Option PhoneLog :=
  match inputs.find? fun inp => jsFalsyAttr inp.nameAttr && inp.value == "" with
  | some inp =>
    let newValue := inp.typedValue
    if newValue == phone || newValue == stripLeadingZero phone then
      some (.success newValue)
    else
      some (.warn newValue)
  | none => none

/- ===== VA-number extraction (src/bot.js lines 952-1111) ===== -/

/-- TRACKING_IDS from src/bot.js. -/
def TRACKING_IDS : List String := ["835386638306873", "1234567890123456"]

/-- isTrackingId from src/bot.js. -/
def isTrackingId (num : String) : Bool := TRACKING_IDS.contains num

/-- isLikelyVA from src/bot.js: phone-shaped prefixes and known tracking
identifiers are rejected, everything else passes. -/
def isLikelyVA (num : String) : Bool :=
  if jsStartsWith num "62" || jsStartsWith num "08" || jsStartsWith num "021" then
    false
  else if isTrackingId num then false
  else true

/-- JS word characters, the boundary class of the regex escapes used by
the extraction patterns. -/
def isWordChar (c : Char) : Bool := c.isAlphanum || c == '_'

/-- Maximal digit runs of a character list, each with the characters
flanking it (none at the ends of the string).  Fuel-driven; fuel equal
to the list length always suffices since every step consumes at least one
character. -/
def digitRunsGo : Nat → List Char → Option Char →
    List (Option Char × List Char × Option Char)
  | 0, _, _ => []
  | _ + 1, [], _ => []
  | fuel + 1, c :: cs, prev =>
    if c.isDigit then
      let run := c :: cs.takeWhile Char.isDigit
      let rest := cs.dropWhile Char.isDigit
      (prev, run, rest.head?) :: digitRunsGo fuel rest run.getLast?
    else digitRunsGo fuel cs (some c)

/-- The tokens a global word-bounded digit regex of length range lo..hi
produces on a string: maximal digit runs of admissible length whose
flanking characters are not word characters (a longer run or a run glued
to a word character yields no token at all). -/
def boundaryTokens (lo hi : Nat) (s : String) : List String :=
  (digitRunsGo s.toList.length s.toList none).filterMap
    fun (prev, run, next) =>
      if lo ≤ run.length && run.length ≤ hi &&
          !(prev.any isWordChar) && !(next.any isWordChar) then
        some (String.mk run)
      else none

/-- A rendered text node as the TreeWalker of extraction step 3 visits it:
the tag of its parent element, the computed display and visibility of that
parent, and its text content. -/
structure TextNode where
  parentTag : String
  display : String
  visibility : String
  text : String
deriving DecidableEq

/-- The acceptNode filter of the TreeWalker: script, style and noscript
content is rejected, as is any node whose parent is hidden via display or
visibility. -/
def nodeAccepted (n : TextNode) : Bool :=
  !(jsToLower n.parentTag == "script" || jsToLower n.parentTag == "style" ||
      jsToLower n.parentTag == "noscript") &&
    n.display != "none" && n.visibility != "hidden"

/-- The visible text the page.evaluate of step 3 returns: the accepted
text nodes concatenated, each followed by a space. -/
def visibleText (nodes : List TextNode) : String :=
  String.join ((nodes.filter nodeAccepted).map fun n => n.text ++ " ")

/-- vaLabelSelectors of extraction step 1. -/
def vaLabelSelectors : List String :=
  ["div:has-text(\"Virtual Account\") >> xpath=following-sibling::*[1]",
   "span:has-text(\"Virtual Account\") >> xpath=following-sibling::*[1]",
   "label:has-text(\"Virtual Account\") >> xpath=following-sibling::*[1]",
   "p:has-text(\"Nomor VA\")",
   "div:has-text(\"Nomor VA\")",
   "span:has-text(\"No. Virtual Account\")",
   "[class*=\"copy\"]:visible",
   "button:has-text(\"Copy\"):visible",
   "[class*=\"payment-detail\"]:visible",
   "[class*=\"account-number\"]:visible",
   "[class*=\"va-number\"]:visible"]

/-- The payment-context keyword test of extraction step 2, applied to a
container text. -/
def hasPaymentKeyword (text : String) : Bool :=
  jsIncludes (jsToLower text) "virtual account" || jsIncludes (jsToLower text) "va " ||
    jsIncludes (jsToLower text) "bca" || jsIncludes (jsToLower text) "pembayaran"

/-- One attempt of the VA context pattern at the current position of the
lowercased visible text: one of the payment keywords (with the optional
whitespace and punctuation the pattern allows inside), then a gap of
colons and whitespace, then at least 10 digits of which at most 16 are
consumed.  Returns the consumed digits and the remaining text.  Matching
is greedy without backtracking, which coincides with the regex on these
alternatives. -/
def vaTryAt (l : List Char) : Option (List Char × List Char) := do
  let afterKw ←
    (((l.dropPrefix? "virtual".toList).map
        (fun r => r.dropWhile Char.isWhitespace)).bind
      (List.dropPrefix? · "account".toList)).orElse fun _ =>
    (((l.dropPrefix? "va".toList).map
        (fun r => r.dropWhile Char.isWhitespace)).bind
      (List.dropPrefix? · "bca".toList)).orElse fun _ =>
    (((l.dropPrefix? "nomor".toList).map
        (fun r => r.dropWhile Char.isWhitespace)).bind
      (List.dropPrefix? · "va".toList)).orElse fun _ =>
    (((l.dropPrefix? "no".toList).map
        (fun r =>
          (match r with | '.' :: tl => tl | _ => r).dropWhile
            Char.isWhitespace)).bind
      (List.dropPrefix? · "va".toList)).orElse fun _ =>
    l.dropPrefix? "rekening".toList
  let afterGap := afterKw.dropWhile fun c => c == ':' || c.isWhitespace
  let run := afterGap.takeWhile Char.isDigit
  if 10 ≤ run.length then
    some (run.take 16, afterGap.drop (min run.length 16))
  else none

/-- The global scan of the VA context pattern: leftmost matches, resuming
after each matched stretch, collecting the full match strings (which the
source then re-searches for their digits). -/
def vaContextScanGo : Nat → List Char → List (List Char)
  | 0, _ => []
  | _ + 1, [] => []
  | fuel + 1, l =>
    match vaTryAt l with
    | some (digits, rest) => digits :: vaContextScanGo fuel rest
    | none => vaContextScanGo fuel l.tail

/-- All digit groups the VA context pattern matches in a text (the source
keeps the whole match and re-extracts the digits; since the keyword and
gap contain no digits, the digit group is what that re-extraction finds,
so the scan collects it directly). -/
def vaContextMatches (s : String) : List String :=
  (vaContextScanGo (jsToLower s).toList.length (jsToLower s).toList).map String.mk

/-- The unanchored search for a first run of at least 10 digits, of which
at most 16 are taken (the inner re-extraction regex of step 3). -/
def firstDigitRun1016 : List Char → Option String
  | [] => none
  | l@(_ :: tl) =>
    let run := l.takeWhile Char.isDigit
    if 10 ≤ run.length then some (String.mk (run.take 16))
    else firstDigitRun1016 tl

/- ===== navigateToPayment (src/bot.js lines 715-1134) ===== -/

/-- The page once checkout is reached, as the payment phase observes it:
the locator oracle, the direct page click on the Virtual Account text
(true when page.click succeeds), the visible radio, checkbox and container
lists of the fixed queries, and the text nodes the extraction TreeWalker
visits. -/
structure PayPage where
  locatorFirst : String → Option Elem
  clickTextVA : Bool
  visibleRadios : List Elem
  visibleCheckboxes : List Elem
  visibleContainers : List Elem
  textNodes : List TextNode

/-- Extraction step 1: the first labeled element whose locator resolves
visible and whose text holds a word-bounded 10-16 digit token passing
isLikelyVA provides that token. -/
def extractStep1 (page : PayPage) : Option String :=
  vaLabelSelectors.findSome? fun sel =>
    match page.locatorFirst sel with
    | some el =>
      if el.visible then (boundaryTokens 10 16 el.text).find? isLikelyVA
      else none
    | none => none

/-- Extraction step 2: the first visible container whose text holds a
payment keyword and a word-bounded 12-16 digit token passing isLikelyVA
provides that token. -/
def extractStep2 (page : PayPage) : Option String :=
  page.visibleContainers.findSome? fun c =>
    if hasPaymentKeyword c.text then
      (boundaryTokens 12 16 c.text).find? isLikelyVA
    else none

/-- Extraction step 3: the keyword-adjacent digit groups of the visible
text, filtered through the inner digit re-extraction and isLikelyVA. -/
def extractStep3 (nodes : List TextNode) : Option String :=
  (vaContextMatches (visibleText nodes)).findSome? fun m =>
    match firstDigitRun1016 m.toList with
    | some num => if isLikelyVA num then some num else none
    | none => none

/-- The VA-number extraction of navigateToPayment: step 1, then step 2,
then step 3. -/
def extractVA (page : PayPage) : Option String :=
  match extractStep1 page with
  | some v => some v
  | none =>
    match extractStep2 page with
    | some v => some v
    | none => extractStep3 page.textNodes

/-- selectors.checkout.nextButton from src/utils/selectors.js. -/
def nextButtonSelectors : List String :=
  ["button:has-text(\"Lanjutkan\")",
   "button:has-text(\"Selanjutnya\")",
   "button:has-text(\"Next\")",
   "button:has-text(\"Continue\")",
   ".btn-next",
   ".btn-continue",
   "[class*=\"next\"]",
   "button[type=\"submit\"]"]

/-- selectors.checkout.payButton from src/utils/selectors.js. -/
def payButtonSelectors : List String :=
  ["button:has-text(\"Bayar\")",
   "button:has-text(\"Bayar Sekarang\")",
   "button:has-text(\"Pay\")",
   "button:has-text(\"Pay Now\")",
   ".btn-pay",
   "[class*=\"pay\"]"]

/-- One iteration of the checkout loop as seen from the page: the result
of the payment-method-surface query and the page.dollar oracle for the
continue and pay selectors. -/
structure NavSnap where
  paymentMethods : Option Elem
  query : String → Option Elem

/-- The continue or pay button scan of one checkout iteration: first
selector whose query finds a visible, enabled button. -/
def clickableScan (snap : NavSnap) : List String → Option Elem
  | [] => none
  | sel :: rest =>
    match snap.query sel with
    | some b =>
      if b.visible && !b.disabled then some b else clickableScan snap rest
    | none => clickableScan snap rest

/-- How the checkout loop ended. -/
inductive NavLoopExit where
  | paymentDetected
  | noClickable
  | maxClicksReached
deriving DecidableEq

/-- The checkout loop of navigateToPayment, structurally recursing on the
remaining click budget (the source runs while clickCount < maxClicks and
increments clickCount exactly once per performed click).  Each iteration
first queries for a payment-method surface and stops there when present;
otherwise it clicks at most one continue button, else at most one pay
button, and an iteration with no clickable affordance breaks out. -/
def navLoopGo (env : Nat → NavSnap) :
    Nat → Nat → Nat → Nat × NavLoopExit
  | 0, _, clicks => (clicks, .maxClicksReached)
  | remaining + 1, iter, clicks =>
    let snap := env iter
    match snap.paymentMethods with
    | some _ => (clicks, .paymentDetected)
    | none =>
      match clickableScan snap nextButtonSelectors with
      | some _ => navLoopGo env remaining (iter + 1) (clicks + 1)
      | none =>
        match clickableScan snap payButtonSelectors with
        | some _ => navLoopGo env remaining (iter + 1) (clicks + 1)
        | none => (clicks, .noClickable)

/-- The checkout loop with the source constants maxClicks = 5,
clickCount = 0. -/
def navLoop (env : Nat → NavSnap) : Nat × NavLoopExit :=
  navLoopGo env 5 0 0

/-- vaSelectors of the payment-method selection. -/
def vaSelectors : List String :=
  ["div:has(> div:has-text(\"Virtual Account\"))",
   "div[class*=\"accordion\"]:has-text(\"Virtual Account\")",
   "div[class*=\"payment\"]:has-text(\"Virtual Account\")",
   "div[class*=\"card\"]:has-text(\"Virtual Account\")",
   "div:has-text(\"Virtual Account\") svg",
   "div:has-text(\"Virtual Account\") [class*=\"chevron\"]",
   "div:has-text(\"Virtual Account\") [class*=\"arrow\"]",
   "text=\"Virtual Account\""]

/-- bcaSelectors of the payment-method selection. -/
def bcaSelectors : List String :=
  ["text=\"Virtual Account BCA\"",
   "div:has-text(\"Virtual Account BCA\")",
   "span:has-text(\"Virtual Account BCA\")",
   "input[type=\"radio\"] + *:has-text(\"BCA\")",
   "label:has-text(\"Virtual Account BCA\")",
   "label:has-text(\"BCA\")",
   "div:has(img[alt*=\"BCA\"])",
   "img[alt*=\"BCA\"]",
   "img[src*=\"bca\"]",
   "img[src*=\"BCA\"]"]

/-- payNowSelectors of the final confirmation step. -/
def payNowSelectors : List String :=
  ["button:has-text(\"Pay Now\")",
   "button:has-text(\"Bayar Sekarang\")",
   "button:has-text(\"Bayar\")",
   "button:has-text(\"Process Payment\")",
   "button:has-text(\"Confirm\")",
   "button:has-text(\"Konfirmasi\")",
   "button[type=\"submit\"]:visible",
   "button.btn-primary:visible",
   "button[class*=\"pay\"]:visible",
   "button[class*=\"submit\"]:visible"]

/-- The accordion-expansion scan of the VA and BCA steps: first selector
whose locator resolves visible with a bounding box receives the coordinate
click (a visible element without a box is skipped, not clicked). -/
def boxClickScan (page : PayPage) : List String → Option Elem
  | [] => none
  | sel :: rest =>
    match page.locatorFirst sel with
    | some e =>
      if e.visible && e.hasBox then some e else boxClickScan page rest
    | none => boxClickScan page rest

/-- The Pay Now scan: first selector whose locator resolves visible and
not disabled (a visible disabled button is skipped). -/
def payNowScan (page : PayPage) : List String → Option Elem
  | [] => none
  | sel :: rest =>
    match page.locatorFirst sel with
    | some e =>
      if e.visible then
        if e.disabled then payNowScan page rest else some e
      else payNowScan page rest
    | none => payNowScan page rest

/-- Result record of a navigateToPayment run. -/
structure NavResult where
  result : Bool
  clicks : Nat
  exit : NavLoopExit
  vaClicked : Bool
  bcaClicked : Bool
  payNowClicked : Bool
  checkboxClicks : Nat
  vaNumber : Option String
deriving DecidableEq

/-- navigateToPayment from src/bot.js: the checkout loop, then (unless a
payment surface already returned) the Virtual Account expansion with its
direct text-click fallback, the BCA selection with its second-radio
positional fallback, the checking of every unchecked visible checkbox, the
Pay Now click, and the VA-number extraction; the function returns true on
every path (only the early payment-surface return skips the later
phases).  Log-only statements of the source are omitted. -/
def navigateToPayment (env : Nat → NavSnap) (page : PayPage) : NavResult :=
  let (clicks, exit) := navLoop env
  match exit with
  | .paymentDetected =>
    { result := true, clicks := clicks, exit := exit, vaClicked := false,
      bcaClicked := false, payNowClicked := false, checkboxClicks := 0,
      vaNumber := none }
  | _ =>
    let vaClicked :=
      (boxClickScan page vaSelectors).isSome || page.clickTextVA
    let bcaClicked :=
      (boxClickScan page bcaSelectors).isSome ||
        decide (2 ≤ page.visibleRadios.length)
    let checkboxClicks :=
      (page.visibleCheckboxes.filter fun c => !c.checked).length
    let payNowClicked := (payNowScan page payNowSelectors).isSome
    { result := true, clicks := clicks, exit := exit,
      vaClicked := vaClicked, bcaClicked := bcaClicked,
      payNowClicked := payNowClicked, checkboxClicks := checkboxClicks,
      vaNumber := extractVA page }

/- ===== helper lemmas ===== -/

theorem infixCheck_iff (need hay : List Char) :
    infixCheck need hay = true ↔ need <:+: hay := by
  induction hay with
  | nil =>
    simp only [infixCheck, List.isEmpty_iff]
    constructor
    · rintro rfl; exact List.infix_rfl
    · intro h; simpa using h.length_le
  | cons c rest ih =>
    simp only [infixCheck, Bool.or_eq_true, List.isPrefixOf_iff_prefix, ih,
      List.infix_cons_iff]

theorem jsIncludes_iff (s sub : String) :
    jsIncludes s sub = true ↔ sub.toList <:+: s.toList := by
  simp [jsIncludes, infixCheck_iff]

theorem elementExists_eq_any (q : QueryOracle) (sels : List String) :
    elementExists q sels = sels.any fun s => (waitHit (q s)).isSome := by
  induction sels with
  | nil => rfl
  | cons sel rest ih =>
    simp only [elementExists, List.any_cons]
    rcases h : q sel with e | o
    · simpa [waitHit, h] using ih
    · rcases o with _ | e
      · simpa [waitHit, h] using ih
      · simp [waitHit, h]

theorem findElementGo_eq_findSome? (wait : WaitOracle) (per : ℚ)
    (state : String) (sels : List String) :
    findElementGo wait per state sels =
      sels.findSome? fun s => waitHit (wait s per state) := by
  induction sels with
  | nil => rfl
  | cons sel rest ih =>
    simp only [findElementGo, List.findSome?_cons]
    rcases h : wait sel per state with e | o
    · simpa [waitHit, h] using ih
    · rcases o with _ | e
      · simpa [waitHit, h] using ih
      · simp [waitHit, h]

theorem findElementCallsGo_spec (wait : WaitOracle) (per : ℚ)
    (state : String) (sels : List String) :
    (findElementCallsGo wait per state sels).map Prod.fst =
        sels.take (findElementCallsGo wait per state sels).length ∧
      ∀ p ∈ findElementCallsGo wait per state sels, p.2 = per := by
  induction sels with
  | nil => exact ⟨rfl, by simp [findElementCallsGo]⟩
  | cons sel rest ih =>
    simp only [findElementCallsGo]
    rcases h : wait sel per state with e | o
    · refine ⟨?_, ?_⟩
      · simpa using ih.1
      · intro p hp
        rcases List.mem_cons.1 hp with rfl | hp
        · rfl
        · exact ih.2 p hp
    · rcases o with _ | e
      · refine ⟨?_, ?_⟩
        · simpa using ih.1
        · intro p hp
          rcases List.mem_cons.1 hp with rfl | hp
          · rfl
          · exact ih.2 p hp
      · refine ⟨by simp, ?_⟩
        intro p hp
        rcases List.mem_cons.1 hp with rfl | hp
        · rfl
        · simp at hp

theorem tickProbe_some (snap : BuySnap) (sels : List String) (b : Elem)
    (h : (tickProbe snap sels).2 = some b) :
    b.visible = true ∧ b.disabled = false ∧
      ∃ sel ∈ sels, snap.probe sel = .ok (some b) := by
  induction sels with
  | nil => simp [tickProbe] at h
  | cons sel rest ih =>
    simp only [tickProbe] at h
    rcases hp : snap.probe sel with e | o
    · rw [hp] at h
      obtain ⟨hv, hd, s, hs, hps⟩ := ih h
      exact ⟨hv, hd, s, List.mem_cons_of_mem _ hs, hps⟩
    · rcases o with _ | e
      · rw [hp] at h
        obtain ⟨hv, hd, s, hs, hps⟩ := ih h
        exact ⟨hv, hd, s, List.mem_cons_of_mem _ hs, hps⟩
      · rw [hp] at h
        dsimp only at h
        by_cases hok : e.visible && !e.disabled
        · rw [if_pos hok] at h
          obtain rfl : e = b := by simpa using h
          simp only [Bool.and_eq_true, Bool.not_eq_true'] at hok
          exact ⟨hok.1, hok.2, sel, List.mem_cons_self .., hp⟩
        · rw [if_neg hok] at h
          obtain ⟨hv, hd, s, hs, hps⟩ := ih h
          exact ⟨hv, hd, s, List.mem_cons_of_mem _ hs, hps⟩

theorem buyTick_some (snap : BuySnap) (p it : Nat) (b : Elem)
    (h : (buyTick snap p it).2 = some b) :
    b.visible = true ∧ b.disabled = false ∧
      ∃ sel ∈ buyButtonSelectors, snap.probe sel = .ok (some b) := by
  unfold buyTick at h
  by_cases hg : isWaitingRoom snap.url
  · simp [hg] at h
  · rw [if_neg (by simpa using hg)] at h
    rcases hr : (tickProbe snap buyButtonSelectors).2 with _ | e
    · simp only [hr] at h
      simp at h
    · simp only [hr] at h
      obtain rfl : e = b := by simpa using h
      exact tickProbe_some snap _ _ hr

theorem waitForBuyButton_some (env : Nat → BuySnap) (p fuel it : Nat)
    (b : Elem) (h : (waitForBuyButton env p fuel it).2 = some b) :
    b.visible = true ∧ b.disabled = false ∧
      ∃ k, ∃ sel ∈ buyButtonSelectors, (env k).probe sel = .ok (some b) := by
  induction fuel generalizing it with
  | zero => simp [waitForBuyButton] at h
  | succ fuel ih =>
    simp only [waitForBuyButton] at h
    rcases hr : (buyTick (env (it + 1)) p (it + 1)).2 with _ | e
    · simp only [hr] at h
      exact ih (it + 1) h
    · simp only [hr] at h
      obtain rfl : e = b := by simpa using h
      obtain ⟨hv, hd, sel, hmem, hps⟩ := buyTick_some _ _ _ _ hr
      exact ⟨hv, hd, it + 1, sel, hmem, hps⟩

theorem waitForBuyButton_none (env : Nat → BuySnap) (p fuel it : Nat)
    (h : (waitForBuyButton env p fuel it).2 = none) :
    ∀ k < fuel, (buyTick (env (it + k + 1)) p (it + k + 1)).2 = none := by
  induction fuel generalizing it with
  | zero => intro k hk; omega
  | succ fuel ih =>
    intro k hk
    simp only [waitForBuyButton] at h
    rcases hr : (buyTick (env (it + 1)) p (it + 1)).2 with _ | e
    · rcases k with _ | k
      · simpa using hr
      · rw [hr] at h
        have := ih (it + 1) h k (by omega)
        have harith : it + 1 + k + 1 = it + (k + 1) + 1 := by omega
        rwa [harith] at this
    · rw [hr] at h
      simp at h

theorem navLoopGo_clicks_le (env : Nat → NavSnap) (r i c : Nat) :
    (navLoopGo env r i c).1 ≤ c + r := by
  induction r generalizing i c with
  | zero => simp [navLoopGo]
  | succ r ih =>
    simp only [navLoopGo]
    rcases hpm : (env i).paymentMethods with _ | e
    · rcases hnext : clickableScan (env i) nextButtonSelectors with _ | b
      · rcases hpay : clickableScan (env i) payButtonSelectors with _ | b
        · simp only [hpm, hnext, hpay]
          omega
        · simp only [hpm, hnext, hpay]
          have := ih (i + 1) (c + 1)
          omega
      · simp only [hpm, hnext]
        have := ih (i + 1) (c + 1)
        omega
    · simp only [hpm]
      omega

theorem navigateToPayment_result (env : Nat → NavSnap) (page : PayPage) :
    (navigateToPayment env page).result = true := by
  unfold navigateToPayment
  rcases h : navLoop env with ⟨c, e⟩
  cases e <;> rfl

theorem navigateToPayment_clicks (env : Nat → NavSnap) (page : PayPage) :
    (navigateToPayment env page).clicks = (navLoop env).1 := by
  unfold navigateToPayment
  rcases h : navLoop env with ⟨c, e⟩
  cases e <;> rfl

theorem navigateToPayment_exit (env : Nat → NavSnap) (page : PayPage) :
    (navigateToPayment env page).exit = (navLoop env).2 := by
  unfold navigateToPayment
  rcases h : navLoop env with ⟨c, e⟩
  cases e <;> rfl

theorem navigateToPayment_vaNumber (env : Nat → NavSnap) (page : PayPage)
    (h : (navLoop env).2 ≠ NavLoopExit.paymentDetected) :
    (navigateToPayment env page).vaNumber = extractVA page := by
  unfold navigateToPayment
  rcases hh : navLoop env with ⟨c, e⟩
  rw [hh] at h
  cases e
  · simp at h
  · rfl
  · rfl

/- ===== claim theorems ===== -/

/-- Claim C2: for every non-empty candidate list and timeout budget,
findElement tries the candidates strictly in list order, each
page.waitForSelector call receives exactly timeout divided by the number
of candidates, the first matching candidate wins, a throwing candidate is
treated as a non-match, and an all-miss run returns none without throwing;
elementExists likewise reports whether any candidate probe hits. -/
theorem claimC2_findElement_first_match (wait : WaitOracle)
    (q : QueryOracle) (sels : List String) (timeout : ℚ) (state : String)
    (hne : sels ≠ []) :
    (findElement wait sels timeout state =
        sels.findSome? fun s => waitHit (wait s (timeout / sels.length) state)) ∧
    ((findElementCalls wait sels timeout state).map Prod.fst =
        sels.take (findElementCalls wait sels timeout state).length) ∧
    (∀ p ∈ findElementCalls wait sels timeout state,
        p.2 = timeout / sels.length) ∧
    (elementExists q sels = sels.any fun s => (waitHit (q s)).isSome) := by
  refine ⟨?_, ?_, ?_, ?_⟩
  · exact findElementGo_eq_findSome? wait _ state sels
  · exact (findElementCallsGo_spec wait _ state sels).1
  · exact (findElementCallsGo_spec wait _ state sels).2
  · exact elementExists_eq_any q sels

/-- Witness for claim C2 at a concrete two-candidate list whose second
candidate matches. -/
theorem claimC2_witness :
    findElement (fun sel _ _ => if sel == "b" then .ok (some 7) else .ok none)
      ["a", "b"] 1000 "visible" = some 7 := by
  have h := claimC2_findElement_first_match
    (fun sel _ _ => if sel == "b" then .ok (some 7) else .ok none)
    (fun _ => .ok none) ["a", "b"] 1000 "visible" (by simp)
  rw [h.1]
  rfl

/-- Claim C3: queue-gate classification is a pure function of the location
string, true exactly when the lowercased url contains one of the four
fixed queue markers. -/
theorem claimC3_isWaitingRoom_pure (url : String) :
    isWaitingRoom url = true ↔
      ("waiting-room".toList <:+: (jsToLower url).toList ∨
       "queue".toList <:+: (jsToLower url).toList ∨
       "antrean".toList <:+: (jsToLower url).toList ∨
       "antrian".toList <:+: (jsToLower url).toList) := by
  simp [isWaitingRoom, urlPatterns, jsIncludes_iff]

/-- Claim C4: a gated iteration of the polling loop reads the url first,
performs no navigation, no reload and no buy-button probe, sleeps exactly
one poll interval, emits its queue log only on the throttled iterations,
and produces no button. -/
theorem claimC4_gated_tick (snap : BuySnap) (pollInterval it : Nat)
    (hgate : isWaitingRoom snap.url = true) :
    ((buyTick snap pollInterval it).1.head? = some .readUrl) ∧
    (∀ a ∈ (buyTick snap pollInterval it).1,
        (∀ u, a ≠ .navigate u) ∧ a ≠ .reload ∧ ∀ s, a ≠ .probeSel s) ∧
    ((buyTick snap pollInterval it).1.count (.sleep pollInterval) = 1) ∧
    (BotAction.queueLog ∈ (buyTick snap pollInterval it).1 →
        it % 50 == 1) ∧
    ((buyTick snap pollInterval it).2 = none) := by
  have ht : buyTick snap pollInterval it =
      (.readUrl :: (if it % 50 == 1 then [.queueLog] else []) ++
        [.sleep pollInterval], none) := by
    unfold buyTick
    rw [hgate]
    exact rfl
  refine ⟨?_, ?_, ?_, ?_, ?_⟩ <;> rw [ht]
  · by_cases h50 : it % 50 == 1 <;> simp [h50]
  · intro a ha
    by_cases h50 : it % 50 == 1
    · rw [if_pos h50] at ha
      simp at ha
      rcases ha with rfl | rfl | rfl
      · exact ⟨fun u => by simp, by simp, fun s => by simp⟩
      · exact ⟨fun u => by simp, by simp, fun s => by simp⟩
      · exact ⟨fun u => by simp, by simp, fun s => by simp⟩
    · rw [if_neg h50] at ha
      simp at ha
      rcases ha with rfl | rfl
      · exact ⟨fun u => by simp, by simp, fun s => by simp⟩
      · exact ⟨fun u => by simp, by simp, fun s => by simp⟩
  · by_cases h50 : it % 50 == 1 <;>
      simp [h50, List.count_cons, List.count_nil]
  · by_cases h50 : it % 50 == 1
    · intro _
      exact h50
    · intro hmem
      simp [h50] at hmem

/-- Witness for claim C4 at a concrete waiting-room url on iteration 1. -/
theorem claimC4_witness :
    (buyTick ⟨"https://loket.com/waiting-room/abc", fun _ => .ok none⟩
        100 1).2 = none := by
  exact (claimC4_gated_tick
    ⟨"https://loket.com/waiting-room/abc", fun _ => .ok none⟩ 100 1
    (by decide)).2.2.2.2

/-- Claim C5: the availability poller returns no failure value: a run can
only end in a returned element that some buy-button candidate resolved
visible and not disabled, and a run that has not returned (modelled by
exhausted fuel, that is, external interruption) is one on which every tick
so far produced no button. -/
theorem claimC5_poller_no_failure (env : Nat → BuySnap)
    (pollInterval fuel it : Nat) :
    (∀ b, (waitForBuyButton env pollInterval fuel it).2 = some b →
        b.visible = true ∧ b.disabled = false ∧
        ∃ k, ∃ sel ∈ buyButtonSelectors,
          (env k).probe sel = .ok (some b)) ∧
    ((waitForBuyButton env pollInterval fuel it).2 = none →
        ∀ k < fuel,
          (buyTick (env (it + k + 1)) pollInterval (it + k + 1)).2 = none) := by
  exact ⟨fun b h => waitForBuyButton_some env pollInterval fuel it b h,
    fun h => waitForBuyButton_none env pollInterval fuel it h⟩

/-- Concrete buy button for the claim C5 witness. -/
def buyBtnW : Elem := { eid := 5, text := "Beli Tiket" }

/-- Concrete event-page snapshot for the claim C5 witness: the first
buy-button selector resolves to the visible, enabled button. -/
def buySnapW : BuySnap :=
  { url := "https://loket.com/event/x",
    probe := fun sel =>
      if sel == "button:has-text(\"Beli Tiket\")" then .ok (some buyBtnW)
      else .ok none }

/-- Witness for claim C5: a concrete one-tick run that returns the visible,
enabled button of the first candidate selector. -/
theorem claimC5_witness :
    buyBtnW.visible = true ∧ buyBtnW.disabled = false ∧
    ∃ k : Nat, ∃ sel ∈ buyButtonSelectors,
      buySnapW.probe sel = Except.ok (some buyBtnW) := by
  exact (claimC5_poller_no_failure (fun _ => buySnapW) 100 1 0).1 buyBtnW
    (by decide)

/-- Claim C7: the positional phone pass reports success only when the
stored value after typing equals the configured phone or the phone with
its single leading zero stripped, and any other stored value yields a
warning log, never a silent success. -/
theorem claimC7_phone_verification (inputs : List TextInput)
    (phone : String) :
    (∀ v, phoneFillPass inputs phone = some (.success v) →
        v = phone ∨ v = stripLeadingZero phone) ∧
    (∀ inp, inputs.find?
          (fun i => jsFalsyAttr i.nameAttr && i.value == "") = some inp →
        inp.typedValue ≠ phone →
        inp.typedValue ≠ stripLeadingZero phone →
        phoneFillPass inputs phone = some (.warn inp.typedValue)) := by
  constructor
  · intro v h
    unfold phoneFillPass at h
    rcases hf : inputs.find?
        (fun i => jsFalsyAttr i.nameAttr && i.value == "") with _ | inp
    · rw [hf] at h
      simp at h
    · rw [hf] at h
      dsimp only at h
      by_cases hc : inp.typedValue == phone ||
          inp.typedValue == stripLeadingZero phone
      · rw [if_pos hc] at h
        obtain rfl : inp.typedValue = v := by simpa using h
        simpa using hc
      · rw [if_neg hc] at h
        simp at h
  · intro inp hf h1 h2
    unfold phoneFillPass
    rw [hf]
    dsimp only
    rw [if_neg (by simp [h1, h2])]

/-- Witness for claim C7: a page that strips the leading zero; the success
value equals the stripped phone. -/
theorem claimC7_witness :
    "8123456789" = "08123456789" ∨
      "8123456789" = stripLeadingZero "08123456789" := by
  exact (claimC7_phone_verification
    [⟨none, "", "8123456789"⟩] "08123456789").1 "8123456789" (by decide)

/-- Claim C8: the checkout loop clicks at most 5 continue or pay
affordances in total; every iteration checks for a payment-method surface
first and stops there with no further click when one is present; an
iteration with no clickable affordance ends the loop at once; and a loop
that did not end on a detected payment surface hands control onward, with
navigateToPayment still returning true and running the extraction
phase. -/
theorem claimC8_checkout_loop_bounded (env : Nat → NavSnap)
    (page : PayPage) :
    ((navigateToPayment env page).clicks ≤ 5) ∧
    (∀ r i c e, (env i).paymentMethods = some e →
        navLoopGo env (r + 1) i c = (c, .paymentDetected)) ∧
    (∀ r i c, (env i).paymentMethods = none →
        clickableScan (env i) nextButtonSelectors = none →
        clickableScan (env i) payButtonSelectors = none →
        navLoopGo env (r + 1) i c = (c, .noClickable)) ∧
    ((navigateToPayment env page).exit ≠ .paymentDetected →
        (navigateToPayment env page).result = true ∧
        (navigateToPayment env page).vaNumber = extractVA page) := by
  refine ⟨?_, ?_, ?_, ?_⟩
  · rw [navigateToPayment_clicks]
    have h := navLoopGo_clicks_le env 5 0 0
    simpa [navLoop] using h
  · intro r i c e hpm
    simp only [navLoopGo, hpm]
  · intro r i c hpm hnext hpay
    simp only [navLoopGo, hpm, hnext, hpay]
  · intro hne
    rw [navigateToPayment_exit] at hne
    exact ⟨navigateToPayment_result env page,
      navigateToPayment_vaNumber env page hne⟩

/-- Concrete payment-surface element for the claim C8 witness. -/
def payElemW : Elem := { eid := 9, text := "methods" }

/-- Concrete checkout snapshot for the claim C8 witness: the
payment-method surface is already present. -/
def navSnapW : NavSnap :=
  { paymentMethods := some payElemW, query := fun _ => none }

/-- An empty payment page, for witnesses that do not exercise it. -/
def payPageEmptyW : PayPage :=
  { locatorFirst := fun _ => none, clickTextVA := false,
    visibleRadios := [], visibleCheckboxes := [], visibleContainers := [],
    textNodes := [] }

/-- Witness for claim C8: a concrete environment whose first iteration
already shows the payment-method surface. -/
theorem claimC8_witness :
    navLoopGo (fun _ => navSnapW) (4 + 1) 0 0 = (0, .paymentDetected) := by
  exact (claimC8_checkout_loop_bounded (fun _ => navSnapW)
    payPageEmptyW).2.1 4 0 0 payElemW rfl

/-- Claim C10: navigateToPayment returns true on every execution path;
no outcome of the checkout loop, the payment-method selection or the
reference extraction can make it signal failure through its return
value. -/
theorem claimC10_nav_returns_true (env : Nat → NavSnap) (page : PayPage) :
    (navigateToPayment env page).result = true := by
  exact navigateToPayment_result env page

/-- Claim C9: with an empty candidate list, findElement returns none at
once, issuing no page.waitForSelector call, and elementExists returns
false; neither throws (both are total functions of the oracle). -/
theorem claimC9_empty_candidates (wait : WaitOracle) (q : QueryOracle)
    (timeout : ℚ) (state : String) :
    findElement wait [] timeout state = none ∧
    findElementCalls wait [] timeout state = [] ∧
    elementExists q [] = false := by
  exact ⟨rfl, rfl, rfl⟩

/- ===== extraction lemmas and claim C6 ===== -/

theorem digitRunsGo_all_digit (fuel : Nat) (l : List Char) (p : Option Char) :
    ∀ t ∈ digitRunsGo fuel l p, t.2.1.all Char.isDigit = true := by
  induction fuel generalizing l p with
  | zero => intro t ht; simp [digitRunsGo] at ht
  | succ fuel ih =>
    intro t ht
    match l with
    | [] => simp [digitRunsGo] at ht
    | c :: cs =>
      simp only [digitRunsGo] at ht
      by_cases hd : c.isDigit
      · rw [if_pos hd] at ht
        rcases List.mem_cons.1 ht with rfl | ht
        · simp only [List.all_cons, hd, Bool.true_and]
          exact List.all_takeWhile
        · exact ih _ _ t ht
      · rw [if_neg hd] at ht
        exact ih _ _ t ht

theorem boundaryTokens_shape (lo hi : Nat) (s v : String)
    (hv : v ∈ boundaryTokens lo hi s) :
    v.toList.all Char.isDigit = true ∧ lo ≤ v.toList.length ∧
      v.toList.length ≤ hi := by
  unfold boundaryTokens at hv
  rw [List.mem_filterMap] at hv
  obtain ⟨⟨prev, run, next⟩, hmem, hcond⟩ := hv
  dsimp only at hcond
  by_cases hc : (decide (lo ≤ run.length) && decide (run.length ≤ hi) &&
      !(prev.any isWordChar) && !(next.any isWordChar)) = true
  · rw [if_pos hc] at hcond
    obtain rfl : String.mk run = v := by simpa using hcond
    have hall := digitRunsGo_all_digit _ _ _ _ hmem
    simp only [Bool.and_eq_true, decide_eq_true_eq] at hc
    exact ⟨hall, hc.1.1.1, hc.1.1.2⟩
  · rw [if_neg hc] at hcond
    simp at hcond

theorem firstDigitRun1016_shape (l : List Char) (v : String)
    (h : firstDigitRun1016 l = some v) :
    v.toList.all Char.isDigit = true ∧ 10 ≤ v.toList.length ∧
      v.toList.length ≤ 16 := by
  induction l with
  | nil => simp [firstDigitRun1016] at h
  | cons c tl ih =>
    rw [firstDigitRun1016] at h
    by_cases hlen : 10 ≤ ((c :: tl).takeWhile Char.isDigit).length
    · rw [if_pos hlen] at h
      obtain rfl : String.mk (((c :: tl).takeWhile Char.isDigit).take 16) = v := by
        simpa using h
      refine ⟨?_, ?_, ?_⟩
      · rw [List.all_eq_true]
        intro x hx
        have hx2 := List.mem_of_mem_take hx
        have hall := List.all_takeWhile (l := c :: tl) (p := Char.isDigit)
        rw [List.all_eq_true] at hall
        exact hall x hx2
      · show 10 ≤ (((c :: tl).takeWhile Char.isDigit).take 16).length
        rw [List.length_take]
        omega
      · show (((c :: tl).takeWhile Char.isDigit).take 16).length ≤ 16
        rw [List.length_take]
        omega
    · rw [if_neg hlen] at h
      exact ih h

theorem isLikelyVA_spec (v : String) (h : isLikelyVA v = true) :
    jsStartsWith v "62" = false ∧ jsStartsWith v "08" = false ∧
      jsStartsWith v "021" = false ∧ v ∉ TRACKING_IDS := by
  unfold isLikelyVA at h
  by_cases h1 : (jsStartsWith v "62" || jsStartsWith v "08" ||
      jsStartsWith v "021") = true
  · rw [if_pos h1] at h
    simp at h
  · rw [if_neg h1] at h
    by_cases h2 : isTrackingId v = true
    · rw [if_pos h2] at h
      simp at h
    · simp only [Bool.or_eq_true, not_or, Bool.not_eq_true] at h1
      refine ⟨h1.1.1, h1.1.2, h1.2, ?_⟩
      intro hmem
      apply h2
      unfold isTrackingId
      exact List.contains_iff_exists_mem_beq.2 ⟨v, hmem, by simp⟩

theorem extractStep1_spec (page : PayPage) (v : String)
    (h : extractStep1 page = some v) :
    isLikelyVA v = true ∧
      ∃ sel ∈ vaLabelSelectors, ∃ el, page.locatorFirst sel = some el ∧
        el.visible = true ∧ v ∈ boundaryTokens 10 16 el.text := by
  obtain ⟨sel, hsel, hf⟩ := List.exists_of_findSome?_eq_some h
  rcases hl : page.locatorFirst sel with _ | el
  · rw [hl] at hf
    simp at hf
  · rw [hl] at hf
    dsimp only at hf
    by_cases hvis : el.visible = true
    · rw [if_pos hvis] at hf
      exact ⟨List.find?_some hf, sel, hsel, el, hl, hvis,
        List.mem_of_find?_eq_some hf⟩
    · rw [if_neg hvis] at hf
      simp at hf

theorem extractStep2_spec (page : PayPage) (v : String)
    (h : extractStep2 page = some v) :
    isLikelyVA v = true ∧
      ∃ c ∈ page.visibleContainers, hasPaymentKeyword c.text = true ∧
        v ∈ boundaryTokens 12 16 c.text := by
  obtain ⟨c, hc, hf⟩ := List.exists_of_findSome?_eq_some h
  by_cases hkw : hasPaymentKeyword c.text = true
  · rw [if_pos hkw] at hf
    exact ⟨List.find?_some hf, c, hc, hkw, List.mem_of_find?_eq_some hf⟩
  · rw [if_neg hkw] at hf
    simp at hf

theorem extractStep3_spec (nodes : List TextNode) (v : String)
    (h : extractStep3 nodes = some v) :
    isLikelyVA v = true ∧ v.toList.all Char.isDigit = true ∧
      10 ≤ v.toList.length ∧ v.toList.length ≤ 16 ∧
      ∃ m ∈ vaContextMatches (visibleText nodes),
        firstDigitRun1016 m.toList = some v := by
  obtain ⟨m, hm, hf⟩ := List.exists_of_findSome?_eq_some h
  rcases hr : firstDigitRun1016 m.toList with _ | num
  · rw [hr] at hf
    simp at hf
  · rw [hr] at hf
    dsimp only at hf
    by_cases hva : isLikelyVA num = true
    · rw [if_pos hva] at hf
      obtain rfl : num = v := by simpa using hf
      obtain ⟨hall, hlo, hhi⟩ := firstDigitRun1016_shape _ _ hr
      exact ⟨hva, hall, hlo, hhi, m, hm, hr⟩
    · rw [if_neg hva] at hf
      simp at hf

theorem visibleText_drop_rejected (l1 l2 : List TextNode) (n : TextNode)
    (h : nodeAccepted n = false) :
    visibleText (l1 ++ n :: l2) = visibleText (l1 ++ l2) := by
  simp [visibleText, List.filter_append, List.filter_cons, h]

/-- Claim C6: any reference the extraction returns passes isLikelyVA, so it
is never a member of the exclusion list (known tracking identifiers) and
never carries a phone-number-shaped prefix, even when it sits next to a
payment keyword; it is always a token of 10 to 16 digits; it always comes
from a labeled payment element, a payment-keyword container, or a
keyword-adjacent match in the walker text; and the walker text the third
step scans is insensitive to script, style and hidden nodes, which the
TreeWalker filter rejects. -/
theorem claimC6_extraction_guarded (page : PayPage) (v : String)
    (l1 l2 : List TextNode) (n : TextNode) :
    (extractVA page = some v →
        (v ∉ TRACKING_IDS ∧ jsStartsWith v "62" = false ∧
          jsStartsWith v "08" = false ∧ jsStartsWith v "021" = false) ∧
        (v.toList.all Char.isDigit = true ∧ 10 ≤ v.toList.length ∧
          v.toList.length ≤ 16) ∧
        ((∃ sel ∈ vaLabelSelectors, ∃ el, page.locatorFirst sel = some el ∧
            el.visible = true ∧ v ∈ boundaryTokens 10 16 el.text) ∨
         (∃ c ∈ page.visibleContainers, hasPaymentKeyword c.text = true ∧
            v ∈ boundaryTokens 12 16 c.text) ∨
         (∃ m ∈ vaContextMatches (visibleText page.textNodes),
            firstDigitRun1016 m.toList = some v))) ∧
    (nodeAccepted n = false →
        visibleText (l1 ++ n :: l2) = visibleText (l1 ++ l2)) := by
  constructor
  · intro h
    unfold extractVA at h
    rcases h1 : extractStep1 page with _ | v1
    · rw [h1] at h
      rcases h2 : extractStep2 page with _ | v2
      · rw [h2] at h
        obtain ⟨hva, hall, hlo, hhi, hm⟩ := extractStep3_spec _ _ h
        obtain ⟨h62, h08, h021, hmem⟩ := isLikelyVA_spec _ hva
        exact ⟨⟨hmem, h62, h08, h021⟩, ⟨hall, hlo, hhi⟩,
          Or.inr (Or.inr hm)⟩
      · rw [h2] at h
        obtain rfl : v2 = v := by simpa using h
        obtain ⟨hva, c, hc, hkw, htok⟩ := extractStep2_spec _ _ h2
        obtain ⟨h62, h08, h021, hmem⟩ := isLikelyVA_spec _ hva
        obtain ⟨hall, hlo, hhi⟩ := boundaryTokens_shape _ _ _ _ htok
        exact ⟨⟨hmem, h62, h08, h021⟩, ⟨hall, by omega, hhi⟩,
          Or.inr (Or.inl ⟨c, hc, hkw, htok⟩)⟩
    · rw [h1] at h
      obtain rfl : v1 = v := by simpa using h
      obtain ⟨hva, sel, hsel, el, hel, hvis, htok⟩ := extractStep1_spec _ _ h1
      obtain ⟨h62, h08, h021, hmem⟩ := isLikelyVA_spec _ hva
      obtain ⟨hall, hlo, hhi⟩ := boundaryTokens_shape _ _ _ _ htok
      exact ⟨⟨hmem, h62, h08, h021⟩, ⟨hall, hlo, hhi⟩,
        Or.inl ⟨sel, hsel, el, hel, hvis, htok⟩⟩
  · exact visibleText_drop_rejected l1 l2 n

/-- Concrete labeled element for the claim C6 witness. -/
def vaElemW : Elem := { eid := 3, text := "Nomor VA: 3901234567890" }

/-- Concrete payment page for the claim C6 witness: one labeled selector
resolves to a visible element holding the reference. -/
def payPageW : PayPage :=
  { locatorFirst := fun sel =>
      if sel == "p:has-text(\"Nomor VA\")" then some vaElemW else none,
    clickTextVA := false, visibleRadios := [], visibleCheckboxes := [],
    visibleContainers := [], textNodes := [] }

/-- A script-tag text node, rejected by the walker filter. -/
def hiddenNodeW : TextNode :=
  { parentTag := "script", display := "block", visibility := "visible",
    text := "835386638306873" }

/-- Witness for claim C6: a concrete extraction run returning a reference
outside the exclusion list, and a concrete rejected node that the walker
text ignores. -/
theorem claimC6_witness :
    (("3901234567890" : String) ∉ TRACKING_IDS) ∧
    visibleText ([] ++ hiddenNodeW :: []) = visibleText ([] ++ []) := by
  refine ⟨?_, ?_⟩
  · exact ((claimC6_extraction_guarded payPageW "3901234567890" [] []
      hiddenNodeW).1 (by decide)).1.1
  · exact (claimC6_extraction_guarded payPageW "3901234567890" [] []
      hiddenNodeW).2 (by decide)

/- ===== category-selection lemmas and claim C1 ===== -/

theorem sectionScan_spec (kw : String) (sections : List SectionEl) (b : Elem)
    (h : sectionScan kw sections = some b) :
    ∃ s ∈ sections, sectionMatchesKw kw s = true ∧ sectionSoldOut s = false ∧
      s.selectBtn = some b := by
  induction sections with
  | nil => simp [sectionScan] at h
  | cons s rest ih =>
    rw [sectionScan] at h
    by_cases hm : sectionMatchesKw kw s = true
    · rw [if_pos hm] at h
      by_cases hso : sectionSoldOut s = true
      · rw [if_pos hso] at h
        obtain ⟨s2, hs2, hrest⟩ := ih h
        exact ⟨s2, List.mem_cons_of_mem _ hs2, hrest⟩
      · rw [if_neg hso] at h
        rcases hsb : s.selectBtn with _ | btn
        · rw [hsb] at h
          obtain ⟨s2, hs2, hrest⟩ := ih h
          exact ⟨s2, List.mem_cons_of_mem _ hs2, hrest⟩
        · rw [hsb] at h
          obtain rfl : btn = b := by simpa using h
          exact ⟨s, List.mem_cons_self .., hm, by simpa using hso, hsb⟩
    · rw [if_neg hm] at h
      obtain ⟨s2, hs2, hrest⟩ := ih h
      exact ⟨s2, List.mem_cons_of_mem _ hs2, hrest⟩

theorem keywordScan_spec (page : CatPage) (kws : List String) (b : Elem)
    (h : keywordScan page kws = some b) :
    ∃ pre kw post, kws = pre ++ kw :: post ∧
      (∀ k2 ∈ pre, sectionScan k2 page.ticketSections = none) ∧
      sectionScan kw page.ticketSections = some b := by
  induction kws with
  | nil => simp [keywordScan] at h
  | cons kw rest ih =>
    rw [keywordScan] at h
    rcases hs : sectionScan kw page.ticketSections with _ | b2
    · rw [hs] at h
      obtain ⟨pre, kw2, post, heq, hpre, hscan⟩ := ih h
      refine ⟨kw :: pre, kw2, post, by simp [heq], ?_, hscan⟩
      intro k2 hk2
      rcases List.mem_cons.1 hk2 with rfl | hk2
      · exact hs
      · exact hpre k2 hk2
    · rw [hs] at h
      obtain rfl : b2 = b := by simpa using h
      exact ⟨[], kw, rest, rfl, by simp, hs⟩

theorem selectCategory_direct_ignores_keywords (page : CatPage)
    (kws kws2 : List String) (amt : Nat) (e : Elem)
    (h : findDirectSelect page selectButtonSelectors = some e) :
    selectCategory page kws amt = selectCategory page kws2 amt ∧
      (selectCategory page kws amt).1 = true := by
  unfold selectCategory
  rw [h]
  exact ⟨rfl, rfl⟩

theorem selectCategory_false_iff (page : CatPage) (kws : List String)
    (amt : Nat) :
    (selectCategory page kws amt).1 = false ↔
      findDirectSelect page selectButtonSelectors = none ∧
      page.docButtons.find? (fun b => jsIncludes b.text "Select") = none ∧
      (∀ fb rest, page.selectButtons = fb :: rest →
          keywordScan page kws = none ∧ fb.visible = false) ∧
      fallbackScan page fallbackSelectors = none := by
  unfold selectCategory
  rcases h1 : findDirectSelect page selectButtonSelectors with _ | e
  · rcases h2 : page.docButtons.find? (fun b => jsIncludes b.text "Select")
        with _ | b
    · rcases h3 : page.selectButtons with _ | ⟨fb, rest⟩
      · rcases h4 : fallbackScan page fallbackSelectors with _ | b
        · simp [h2, h3, h4]
        · simp [h2, h3, h4]
      · rcases h5 : keywordScan page kws with _ | b
        · by_cases hv : fb.visible = true
          · simp [h2, h3, h5, hv]
          · have hv2 : fb.visible = false := by simpa using hv
            rcases h4 : fallbackScan page fallbackSelectors with _ | b
            · simp [h2, h3, h5, h4, hv2]
            · simp [h2, h3, h5, h4, hv2]
        · simp [h2, h3, h5]
    · simp [h2]
  · simp [h1]

/-- Concrete elements of the claim C1 counterexample: a keyword-free
Select button the direct strategy finds, and the Select button of the
GOLD section. -/
def regBtnC : Elem := { eid := 1, text := "Select" }

/-- The GOLD section Select button of the claim C1 counterexample. -/
def goldBtnC : Elem := { eid := 2, text := "Pilih" }

/-- The claim C1 counterexample page: the direct strategy-1 locator finds
the keyword-free Select button, while the section list holds an available
GOLD section (matching the preferred keyword, not sold out, with its own
Select button). -/
def catPageC : CatPage :=
  { locatorFirst := fun sel =>
      if sel == "button:has-text(\"Select\")" then some regBtnC else none,
    query := fun _ => none,
    docButtons := [],
    selectButtons := [],
    ticketSections := [⟨"GOLD Tier Rp 100.000", some goldBtnC⟩] }

/-- Counterexample for claim C1: on catPageC with preferred keywords
[GOLD], the GOLD section is a selectable preferred match, yet the run
clicks the keyword-free direct Select button first (the source attempts
its direct Select strategies before consulting any keyword), so the
spec-side ordering property fails. -/
theorem claimC1_counterexample : ¬ specClaimC1 catPageC ["GOLD"] 1 := by
  unfold specClaimC1
  decide

/-- Claim C1 as amended: the direct Select strategy runs first and is
keyword-independent (when it finds a button the run succeeds identically
for any keyword list); only inside the keyword pass are the preferred
keywords honored in listed order with a sold-out check before selection;
and selectCategory returns false exactly when the direct strategy, the JS
click, the keyword pass with its first-Select-button fallback, and the
fallback selectors all find nothing. -/
theorem claimC1_amended (page : CatPage) (kws kws2 : List String)
    (amt : Nat) :
    ((∃ e, findDirectSelect page selectButtonSelectors = some e) →
        selectCategory page kws amt = selectCategory page kws2 amt ∧
        (selectCategory page kws amt).1 = true) ∧
    (∀ b, keywordScan page kws = some b →
        ∃ pre kw post, kws = pre ++ kw :: post ∧
          (∀ k2 ∈ pre, sectionScan k2 page.ticketSections = none) ∧
          ∃ s ∈ page.ticketSections, sectionMatchesKw kw s = true ∧
            sectionSoldOut s = false ∧ s.selectBtn = some b) ∧
    ((selectCategory page kws amt).1 = false ↔
        findDirectSelect page selectButtonSelectors = none ∧
        page.docButtons.find? (fun b => jsIncludes b.text "Select") = none ∧
        (∀ fb rest, page.selectButtons = fb :: rest →
            keywordScan page kws = none ∧ fb.visible = false) ∧
        fallbackScan page fallbackSelectors = none) := by
  refine ⟨?_, ?_, selectCategory_false_iff page kws amt⟩
  · intro ⟨e, he⟩
    exact selectCategory_direct_ignores_keywords page kws kws2 amt e he
  · intro b hb
    obtain ⟨pre, kw, post, heq, hpre, hscan⟩ := keywordScan_spec page kws b hb
    obtain ⟨s, hs, hm, hso, hsb⟩ := sectionScan_spec kw _ b hscan
    exact ⟨pre, kw, post, heq, hpre, s, hs, hm, hso, hsb⟩

/-- Witness for the amended claim C1: on the counterexample page the
direct strategy finds its button, so the outcome is identical for the
keyword lists [GOLD] and [VIP] and the run reports success. -/
theorem claimC1_witness :
    selectCategory catPageC ["GOLD"] 1 = selectCategory catPageC ["VIP"] 1 ∧
      (selectCategory catPageC ["GOLD"] 1).1 = true := by
  exact (claimC1_amended catPageC ["GOLD"] ["VIP"] 1).1
    ⟨regBtnC, by decide⟩

end LoketBot
